import Mathlib

/-!
Verification development for the interactive geometry-authoring subsystem of the
prototype-bim-website repository: the line/rectangle drawing tools, the selection
tool, the extrude tool, the linear undo/redo history and the pointer projector.

The TypeScript classes are shallowly embedded as Lean state structures plus pure
state-transition functions.  Scene-graph objects (THREE.Line, THREE.Mesh,
THREE.Group, THREE.BoxHelper) are identified by natural-number ids allocated from
a per-tool counter; the scene is the list of ids currently inserted.  Numeric
world coordinates are exact rationals for the event-level state machines and real
numbers for the ray/plane projection geometry (src/src/components/LineTool.ts
getIntersectionPoint), where square roots appear.
-/

namespace BimEditor

/-- A 3D world point (THREE.Vector3) with exact rational coordinates, as captured
into a polyline by the drawing tools. -/
structure Vec3 where
  x : ℚ
  y : ℚ
  z : ℚ
  deriving DecidableEq

/-- A 2D point (THREE.Vector2), used for normalized viewport coordinates and for
camera-projected world positions in the selection tool. -/
structure Vec2 where
  x : ℚ
  y : ℚ
  deriving DecidableEq

/-- JavaScript Array.prototype.slice(0, e): take the first e elements, counting
from the end of the array when e is negative.  Used to embed the
history.slice(0, historyIndex + 1) truncation in LineTool.handleDoubleClick
(LineTool.ts line 411) and RectangleTool.onMouseUp (RectangleTool.ts line 150). -/
def jsSliceTo (l : List α) (e : Int) : List α :=
  if e < 0 then l.take (l.length - e.natAbs) else l.take e.toNat

/-- THREE.Scene.add for an object not currently in the scene: append its id. -/
def sceneAdd (scene : List Nat) (o : Nat) : List Nat :=
  scene ++ [o]

/-- THREE.Scene.remove: delete the first occurrence of the object id. -/
def sceneRemove (scene : List Nat) (o : Nat) : List Nat :=
  scene.erase o

/-- The committed shape produced by LineTool.createMeshFromPoints
(LineTool.ts lines 291-398): a THREE.Group holding a fill mesh and a border
line-loop.  The group is represented by the outline of 3D points it was built
from; the border re-traces exactly these points (lines 364-376), while the fill
material, plane basis and transform matrix are rendering detail with no bearing
on commit/undo/redo behavior. -/
structure Mesh where
  outline : List Vec3
  deriving DecidableEq

namespace LineTool

/-- LineTool.createMeshFromPoints (LineTool.ts lines 291-292): returns null when
fewer than 3 points are supplied ("Need at least 3 points to form a face"),
otherwise assembles the fill-plus-border group from the points. -/
def createMeshFromPoints (points : List Vec3) : Option Mesh :=
  if points.length < 3 then none else some ⟨points⟩

end LineTool

/-- State of the LineTool class (LineTool.ts).  Scene objects are ids; nextId is
the allocator for freshly constructed THREE objects.  The pending single-click
timer together with the point captured in its closure is pendingClick (none
means no timer is pending); cancelCount counts invocations of the onCancel
callback; disposed accumulates the ids whose geometry/material have been
disposed.  controlsEnabled mirrors the camera controller flag, which this class
stores but never reads or writes (LineTool.ts lines 43-47). -/
structure LineToolState where
  isDrawing : Bool
  points : List Vec3
  currentLine : Option Nat
  tempLines : List Nat
  history : List Nat
  historyIndex : Int
  scene : List Nat
  pendingClick : Option Vec3
  clickCount : Nat
  cancelCount : Nat
  disposed : List Nat
  controlsEnabled : Bool
  listenKeydown : Bool
  listenMousedown : Bool
  listenMousemove : Bool
  listenDblclick : Bool
  nextId : Nat
  deriving DecidableEq

namespace LineTool

/-- LineTool.clearTempLines (LineTool.ts lines 503-516): remove every temporary
(preview) line from the scene, dispose it, and empty the list. -/
def clearTempLines (s : LineToolState) : LineToolState :=
  { s with scene := s.tempLines.foldl sceneRemove s.scene
         , disposed := s.disposed ++ s.tempLines
         , tempLines := [] }

/-- LineTool.resetDrawing (LineTool.ts lines 521-526): reset the drawing status
to idle, then clear the temporary lines. -/
def resetDrawing (s : LineToolState) : LineToolState :=
  clearTempLines { s with isDrawing := false, points := [], currentLine := none }

/-- LineTool.cancelDrawing (LineTool.ts lines 92-104): remove and dispose the
in-progress polyline, clear the preview lines, reset the drawing state, and
invoke the onCancel callback (always supplied by the constructor). -/
def cancelDrawing (s : LineToolState) : LineToolState :=
  let s1 := match s.currentLine with
    | some l => { s with scene := sceneRemove s.scene l, disposed := s.disposed ++ [l] }
    | none => s
  let s2 := resetDrawing (clearTempLines s1)
  { s2 with cancelCount := s2.cancelCount + 1 }

/-- LineTool.handleKeyDown (LineTool.ts lines 82-86): on Escape while drawing,
cancel the drawing; otherwise do nothing. -/
def handleKeyDown (key : String) (s : LineToolState) : LineToolState :=
  if key = "Escape" ∧ s.isDrawing = true then cancelDrawing s else s

/-- LineTool.handleSingleClick (LineTool.ts lines 224-284): first click begins a
drawing session, allocating the polyline buffer object and a preview segment;
subsequent clicks append the point, rewrite the buffer and regenerate the
preview segment. -/
def handleSingleClick (p : Vec3) (s : LineToolState) : LineToolState :=
  if s.isDrawing = false then
    let lineId := s.nextId
    let previewId := s.nextId + 1
    { s with isDrawing := true
           , points := [p]
           , currentLine := some lineId
           , scene := sceneAdd (sceneAdd s.scene lineId) previewId
           , tempLines := [previewId]
           , nextId := s.nextId + 2 }
  else
    let s1 := clearTempLines { s with points := s.points ++ [p] }
    { s1 with tempLines := [s1.nextId]
            , scene := sceneAdd s1.scene s1.nextId
            , nextId := s1.nextId + 1 }

/-- LineTool.handleDoubleClick (LineTool.ts lines 404-425): while drawing with
more than one captured point, invoke the solid assembler; when it produces a
mesh, add it to the scene and push it onto the history after truncating the
entries beyond the cursor; then remove and dispose the in-progress polyline and
reset to idle. -/
def handleDoubleClick (s : LineToolState) : LineToolState :=
  if s.isDrawing = true ∧ 1 < s.points.length then
    let s1 := match createMeshFromPoints s.points with
      | some _ =>
        { s with scene := sceneAdd s.scene s.nextId
               , history := jsSliceTo s.history (s.historyIndex + 1) ++ [s.nextId]
               , historyIndex := s.historyIndex + 1
               , nextId := s.nextId + 1 }
      | none => s
    let s2 := match s1.currentLine with
      | some l => { s1 with scene := sceneRemove s1.scene l, disposed := s1.disposed ++ [l] }
      | none => s1
    resetDrawing s2
  else s

/-- LineTool.onMouseDown (LineTool.ts lines 431-453) for a button-0 press whose
pointer projection produced point p (projection is total, claim C10).  The first
click starts the 250 ms single-click timer, capturing p in its closure; a second
click before the timer fires cancels the timer and runs handleDoubleClick. -/
def onMouseDown (p : Vec3) (s : LineToolState) : LineToolState :=
  let s1 := { s with clickCount := s.clickCount + 1 }
  if s1.clickCount = 1 then
    { s1 with pendingClick := some p }
  else if s1.clickCount = 2 then
    let s2 := handleDoubleClick { s1 with pendingClick := none }
    { s2 with clickCount := 0 }
  else s1

/-- The single-click timer firing after 250 ms (LineTool.ts lines 440-445): when
exactly one click is pending, place the captured point, then reset the click
count. -/
def timerFires (s : LineToolState) : LineToolState :=
  match s.pendingClick with
  | none => s
  | some p =>
    let s1 := if s.clickCount = 1 then handleSingleClick p s else s
    { s1 with clickCount := 0, pendingClick := none }

/-- LineTool.disable (LineTool.ts lines 543-555): remove the four event
listeners, clear the pending click timer, and reset the drawing state. -/
def disable (s : LineToolState) : LineToolState :=
  resetDrawing { s with listenKeydown := false
                      , listenMousedown := false
                      , listenMousemove := false
                      , listenDblclick := false
                      , pendingClick := none }

/-- LineTool.enable (LineTool.ts lines 532-538): call disable first to avoid
duplicate listener registration, then add the four event listeners. -/
def enable (s : LineToolState) : LineToolState :=
  let s1 := disable s
  { s1 with listenKeydown := true
          , listenMousedown := true
          , listenMousemove := true
          , listenDblclick := true }

/-- LineTool.undo (LineTool.ts lines 561-569): while the cursor is at least 0,
remove the object at the cursor from the scene, decrement the cursor and return
true; otherwise return false. -/
def undo (s : LineToolState) : LineToolState × Bool :=
  if 0 ≤ s.historyIndex then
    let objectToUndo := s.history.getD s.historyIndex.toNat 0
    ({ s with scene := sceneRemove s.scene objectToUndo
            , historyIndex := s.historyIndex - 1 }, true)
  else (s, false)

/-- LineTool.redo (LineTool.ts lines 575-583): while the cursor is before the
last entry, increment the cursor, re-add the object at the new cursor to the
scene and return true; otherwise return false. -/
def redo (s : LineToolState) : LineToolState × Bool :=
  if s.historyIndex < (s.history.length : Int) - 1 then
    let newIndex := s.historyIndex + 1
    ({ s with historyIndex := newIndex
            , scene := sceneAdd s.scene (s.history.getD newIndex.toNat 0) }, true)
  else (s, false)

/-- Iterated undo, discarding the returned booleans. -/
def undoIter : Nat → LineToolState → LineToolState
  | 0, s => s
  | k + 1, s => undoIter k (undo s).1

/-- History well-formedness: the cursor stays between -1 and the last entry.
The cursor starts at -1 and every operation of the class keeps it in range. -/
def WF (s : LineToolState) : Prop :=
  -1 ≤ s.historyIndex ∧ s.historyIndex < (s.history.length : Int)

instance (s : LineToolState) : Decidable (WF s) := by
  unfold WF; exact inferInstance

/-- The scene after stripping the transient drawing objects of state s from a
scene list: first the in-progress polyline is removed, then each preview line,
in the order performed by handleDoubleClick and cancelDrawing. -/
def removeTransient (s : LineToolState) (scene : List Nat) : List Nat :=
  s.tempLines.foldl sceneRemove
    (match s.currentLine with
      | some l => sceneRemove scene l
      | none => scene)

/-- Two button-0 presses with no timer expiry in between (the second click
arrives within the 250 ms window): the double-click gesture. -/
def doubleClick (p q : Vec3) (s : LineToolState) : LineToolState :=
  onMouseDown q (onMouseDown p s)

end LineTool

/-- State of the RectangleTool class (RectangleTool.ts).  The camera controller
(the optional controls argument, here assumed supplied) is mirrored by
controlsEnabled; originalControlsEnabled is the field of the same name
(initialized true, RectangleTool.ts line 18). -/
structure RectToolState where
  isDrawing : Bool
  startPoint : Option Vec3
  currentMesh : Option Nat
  history : List Nat
  historyIndex : Int
  scene : List Nat
  controlsEnabled : Bool
  originalControlsEnabled : Bool
  cancelCount : Nat
  listenMousedown : Bool
  listenMousemove : Bool
  listenMouseup : Bool
  nextId : Nat
  deriving DecidableEq

namespace RectangleTool

/-- RectangleTool.resetDrawing (RectangleTool.ts lines 162-166). -/
def resetDrawing (s : RectToolState) : RectToolState :=
  { s with isDrawing := false, startPoint := none, currentMesh := none }

/-- RectangleTool.onMouseDown (RectangleTool.ts lines 114-132) for a button-0
press whose ground-plane projection produced point p: capture the camera
controller's enabled flag and force it off, begin drawing, and insert the
initial (degenerate) rectangle mesh. -/
def onMouseDown (p : Vec3) (s : RectToolState) : RectToolState :=
  { s with originalControlsEnabled := s.controlsEnabled
         , controlsEnabled := false
         , isDrawing := true
         , startPoint := some p
         , currentMesh := some s.nextId
         , scene := sceneAdd s.scene s.nextId
         , nextId := s.nextId + 1 }

/-- RectangleTool.onMouseMove (RectangleTool.ts lines 134-144): while drawing,
replace the current rectangle mesh with one resized to the new corner. -/
def onMouseMove (s : RectToolState) : RectToolState :=
  match s.isDrawing, s.startPoint, s.currentMesh with
  | true, some _, some m =>
    { s with scene := sceneAdd (sceneRemove s.scene m) s.nextId
           , currentMesh := some s.nextId
           , nextId := s.nextId + 1 }
  | _, _, _ => s

/-- RectangleTool.onMouseUp (RectangleTool.ts lines 146-160): commit the current
rectangle by truncating the history beyond the cursor and appending it, restore
the captured camera-controller flag, and reset the drawing state (the committed
mesh stays in the scene). -/
def onMouseUp (s : RectToolState) : RectToolState :=
  match s.isDrawing, s.currentMesh with
  | true, some m =>
    let s1 := { s with history := jsSliceTo s.history (s.historyIndex + 1) ++ [m]
                     , historyIndex := s.historyIndex + 1 }
    resetDrawing { s1 with controlsEnabled := s1.originalControlsEnabled }
  | _, _ => s

/-- RectangleTool.enable (RectangleTool.ts lines 168-172): add the three event
listeners.  Nothing is removed first and no other state is touched. -/
def enable (s : RectToolState) : RectToolState :=
  { s with listenMousedown := true, listenMousemove := true, listenMouseup := true }

/-- RectangleTool.disable (RectangleTool.ts lines 174-187): remove the three
event listeners, set the camera-controller flag to true unconditionally, and
reset the drawing state. -/
def disable (s : RectToolState) : RectToolState :=
  resetDrawing { s with listenMousedown := false
                      , listenMousemove := false
                      , listenMouseup := false
                      , controlsEnabled := true }

/-- RectangleTool.undo (RectangleTool.ts lines 189-195): while the cursor is at
least 0, remove the object at the cursor from the scene and decrement the
cursor.  The TypeScript method has no return statement on any path, so the call
evaluates to undefined; the returned value is embedded as none. -/
def undo (s : RectToolState) : RectToolState × Option Bool :=
  if 0 ≤ s.historyIndex then
    let lastObject := s.history.getD s.historyIndex.toNat 0
    ({ s with scene := sceneRemove s.scene lastObject
            , historyIndex := s.historyIndex - 1 }, none)
  else (s, none)

/-- RectangleTool.redo (RectangleTool.ts lines 197-203): while the cursor is
before the last entry, increment the cursor and re-add the object at the new
cursor to the scene.  As with undo, no value is returned (undefined, embedded
as none). -/
def redo (s : RectToolState) : RectToolState × Option Bool :=
  if s.historyIndex < (s.history.length : Int) - 1 then
    let newIndex := s.historyIndex + 1
    ({ s with historyIndex := newIndex
            , scene := sceneAdd s.scene (s.history.getD newIndex.toNat 0) }, none)
  else (s, none)

/-- RectangleTool.handleKeyDown (RectangleTool.ts lines 205-212): on Escape,
disable the tool and invoke the onCancel callback. -/
def handleKeyDown (key : String) (s : RectToolState) : RectToolState × Bool :=
  if key = "Escape" then
    let s1 := disable s
    ({ s1 with cancelCount := s1.cancelCount + 1 }, true)
  else (s, false)

/-- Iterated undo. -/
def undoIter : Nat → RectToolState → RectToolState
  | 0, s => s
  | k + 1, s => undoIter k (undo s).1

/-- History well-formedness: the cursor stays between -1 and the last entry. -/
def WF (s : RectToolState) : Prop :=
  -1 ≤ s.historyIndex ∧ s.historyIndex < (s.history.length : Int)

instance (s : RectToolState) : Decidable (WF s) := by
  unfold WF; exact inferInstance

end RectangleTool

/-- Normalized-device-coordinate rectangle (THREE.Box2) built by
SelectionTool.onMouseUp from the dragged marquee. -/
structure Box2 where
  min : Vec2
  max : Vec2
  deriving DecidableEq

/-- State of the SelectionTool class (SelectionTool.ts).  selectedObjects is the
field of the same name; helpers is the set of objects currently carrying a live
selection highlight decoration (a THREE.BoxHelper stored in
userData.selectionHelper and inserted in the scene, SelectionTool.ts lines
138-154). -/
structure SelToolState where
  selectedObjects : List Nat
  helpers : List Nat
  isDragging : Bool
  controlsEnabled : Bool
  originalControlsEnabled : Bool
  listenMousedown : Bool
  listenMousemove : Bool
  listenMouseup : Bool
  deriving DecidableEq

namespace SelectionTool

/-- SelectionTool.removeHighlight (SelectionTool.ts lines 149-154): if the
object holds a highlight decoration, remove it from the scene and null the
reference. -/
def removeHighlight (o : Nat) (st : SelToolState) : SelToolState :=
  { st with helpers := st.helpers.erase o }

/-- SelectionTool.highlightObject (SelectionTool.ts lines 138-147): remove any
existing highlight for the object, then create a fresh box decoration for it. -/
def highlightObject (o : Nat) (st : SelToolState) : SelToolState :=
  let st1 := removeHighlight o st
  { st1 with helpers := st1.helpers ++ [o] }

/-- SelectionTool.selectObject (SelectionTool.ts lines 115-136) applied to a
top-level scene object (the opening ancestor walk of the method resolves to the
object itself for direct children of the scene, which is what the marquee pass
feeds it): toggle membership in selectedObjects, creating or destroying the
highlight decoration in lockstep. -/
def selectObject (o : Nat) (st : SelToolState) : SelToolState :=
  if o ∈ st.selectedObjects then
    removeHighlight o { st with selectedObjects := st.selectedObjects.erase o }
  else
    highlightObject o { st with selectedObjects := st.selectedObjects ++ [o] }

/-- SelectionTool.clearSelection (SelectionTool.ts lines 156-167): remove the
highlight of every selected object, then empty the selection array. -/
def clearSelection (st : SelToolState) : SelToolState :=
  let st1 := st.selectedObjects.foldl (fun acc o => removeHighlight o acc) st
  { st1 with selectedObjects := [] }

/-- THREE.Box2.containsPoint: inclusive containment on both axes. -/
def containsPoint (b : Box2) (p : Vec2) : Bool :=
  decide (b.min.x ≤ p.x ∧ p.x ≤ b.max.x ∧ b.min.y ≤ p.y ∧ p.y ≤ b.max.y)

/-- SelectionTool.onMouseDown (SelectionTool.ts lines 96-113): start the marquee
drag, clearing the previous selection unless shift is held. -/
def onMouseDown (shiftKey : Bool) (st : SelToolState) : SelToolState :=
  let st1 := { st with isDragging := true }
  if shiftKey = false then clearSelection st1 else st1

/-- SelectionTool.onMouseUp (SelectionTool.ts lines 174-219): finish the marquee
drag.  ndcRect is the dragged rectangle converted to normalized viewport
bounds; candidates pairs each candidate mesh of the scene (each a distinct
top-level solid) with its world position projected through the camera into the
same normalized space — the conversion and projection are rendering-engine
primitives consumed by the tool.  Unless shift is held the previous selection
is cleared, then every candidate whose projected position lies inside the
rectangle is toggled into the selection. -/
def onMouseUp (ndcRect : Box2) (shiftKey : Bool) (candidates : List (Nat × Vec2))
    (st : SelToolState) : SelToolState :=
  if st.isDragging = false then st
  else
    let st1 := { st with isDragging := false }
    let st2 := if shiftKey = false then clearSelection st1 else st1
    let hits := candidates.filter (fun c => containsPoint ndcRect c.2)
    hits.foldl (fun acc c => selectObject c.1 acc) st2

/-- SelectionTool.enable (SelectionTool.ts lines 221-232): capture the camera
controller's enabled flag and force it off, then add the three listeners. -/
def enable (st : SelToolState) : SelToolState :=
  { st with originalControlsEnabled := st.controlsEnabled
          , controlsEnabled := false
          , listenMousedown := true
          , listenMousemove := true
          , listenMouseup := true }

/-- SelectionTool.disable (SelectionTool.ts lines 234-246): restore the captured
camera-controller flag, remove the three listeners, and clear the selection. -/
def disable (st : SelToolState) : SelToolState :=
  clearSelection { st with controlsEnabled := st.originalControlsEnabled
                         , listenMousedown := false
                         , listenMousemove := false
                         , listenMouseup := false }

/-- The highlight invariant of the selection engine: the selection holds no
duplicates, and an object carries exactly one live highlight decoration
precisely when it is selected. -/
def SelInv (st : SelToolState) : Prop :=
  st.selectedObjects.Nodup ∧ st.helpers.Nodup ∧
  (∀ o ∈ st.helpers, o ∈ st.selectedObjects) ∧
  (∀ o ∈ st.selectedObjects, o ∈ st.helpers)

instance (st : SelToolState) : Decidable (SelInv st) := by
  unfold SelInv; exact inferInstance

end SelectionTool

/-- State of the ExtrudeTool class (ExtrudeTool.ts), restricted to the fields
its enable/disable lifecycle touches. -/
structure ExtrudeToolState where
  controlsEnabled : Bool
  originalControlsEnabled : Bool
  listenMousedown : Bool
  listenMousemove : Bool
  listenMouseup : Bool
  listenKeydown : Bool
  extrudeGroup : Option Nat
  selectedObject : Option Nat
  isDragging : Bool
  scene : List Nat
  nextId : Nat
  deriving DecidableEq

namespace ExtrudeTool

/-- ExtrudeTool.deselectObject (ExtrudeTool.ts lines 252-264): reset the
highlight material of the selected object, if any, and drop the reference. -/
def deselectObject (s : ExtrudeToolState) : ExtrudeToolState :=
  match s.selectedObject with
  | some _ => { s with selectedObject := none }
  | none => s

/-- ExtrudeTool.enable (ExtrudeTool.ts lines 39-55): add the four event
listeners, insert a fresh group for extrusions into the scene, then capture the
camera controller's enabled flag and force it off. -/
def enable (s : ExtrudeToolState) : ExtrudeToolState :=
  let s1 := { s with listenMousedown := true
                   , listenMousemove := true
                   , listenMouseup := true
                   , listenKeydown := true }
  let s2 := { s1 with extrudeGroup := some s1.nextId
                    , scene := sceneAdd s1.scene s1.nextId
                    , nextId := s1.nextId + 1 }
  { s2 with originalControlsEnabled := s2.controlsEnabled, controlsEnabled := false }

/-- ExtrudeTool.disable (ExtrudeTool.ts lines 57-73): remove the four event
listeners, remove the extrusion group from the scene, deselect, and restore the
captured camera-controller flag. -/
def disable (s : ExtrudeToolState) : ExtrudeToolState :=
  let s1 := { s with listenMousedown := false
                   , listenMousemove := false
                   , listenMouseup := false
                   , listenKeydown := false }
  let s2 := match s1.extrudeGroup with
    | some g => { s1 with scene := sceneRemove s1.scene g }
    | none => s1
  let s3 := deselectObject s2
  { s3 with controlsEnabled := s3.originalControlsEnabled }

end ExtrudeTool

/-- A 3D world point with real coordinates, for the ray/plane projection
geometry of LineTool.getIntersectionPoint where square roots appear. -/
structure Vec3R where
  x : ℝ
  y : ℝ
  z : ℝ

/-- THREE.Vector3.add componentwise. -/
def addR (a b : Vec3R) : Vec3R :=
  ⟨a.x + b.x, a.y + b.y, a.z + b.z⟩

/-- THREE.Vector3.subVectors componentwise. -/
def subVectors (a b : Vec3R) : Vec3R :=
  ⟨a.x - b.x, a.y - b.y, a.z - b.z⟩

/-- THREE.Vector3.multiplyScalar. -/
def smulR (r : ℝ) (a : Vec3R) : Vec3R :=
  ⟨r * a.x, r * a.y, r * a.z⟩

/-- THREE.Vector3.dot. -/
def dotR (a b : Vec3R) : ℝ :=
  a.x * b.x + a.y * b.y + a.z * b.z

/-- THREE.Vector3.length. -/
noncomputable def lengthR (a : Vec3R) : ℝ :=
  Real.sqrt (a.x ^ 2 + a.y ^ 2 + a.z ^ 2)

/-- THREE.Vector3.normalize: divide by the length, or by 1 for the zero
vector (divideScalar(this.length() or 1)). -/
noncomputable def normalizeR (a : Vec3R) : Vec3R :=
  smulR (1 / (if lengthR a = 0 then 1 else lengthR a)) a

/-- THREE.Vector3.distanceTo. -/
noncomputable def distanceTo (a b : Vec3R) : ℝ :=
  lengthR (subVectors a b)

/-- A ray from the camera through the pointer position
(THREE.Raycaster.setFromCamera yields raycaster.ray). -/
structure Ray3 where
  origin : Vec3R
  direction : Vec3R

/-- THREE.Ray.intersectPlane against the plane through coplanarPoint with
normal planeNormal (THREE.Plane.setFromNormalAndCoplanarPoint sets
constant = -(coplanarPoint dot normal)): fails when the ray is parallel to a
plane not containing its origin or when the plane lies behind the ray;
otherwise returns origin + t * direction. -/
noncomputable def intersectPlane (ray : Ray3) (planeNormal coplanarPoint : Vec3R) :
    Option Vec3R :=
  let constant := -(dotR coplanarPoint planeNormal)
  let denominator := dotR planeNormal ray.direction
  if denominator = 0 then
    if dotR planeNormal ray.origin + constant = 0 then some ray.origin else none
  else
    let t := -(dotR ray.origin planeNormal + constant) / denominator
    if t < 0 then none else some (addR ray.origin (smulR t ray.direction))

namespace LineTool

/-- The distance clamp of LineTool.getIntersectionPoint, performed identically
at lines 139-147 (plane branch) and 174-183 (scene-object branch): if the raw
intersection is farther than 5 world units from the last captured point, return
the point 5 units from the last point along the direction toward the raw
intersection; otherwise return the raw intersection unchanged. -/
noncomputable def clampToLastPoint (lastPoint intersection : Vec3R) : Vec3R :=
  if 5 < distanceTo lastPoint intersection then
    addR lastPoint (smulR 5 (normalizeR (subVectors intersection lastPoint)))
  else intersection

/-- The free-form plane block of LineTool.getIntersectionPoint (lines 127-148):
when at least one point is captured and useFixedDistance is false, intersect the
ray with the plane through the last captured point whose normal points from the
last point to the camera; on success return the clamped intersection.  In every
other case control falls through to the scene-object branch. -/
noncomputable def planePhase (points : List Vec3R) (useFixedDistance : Bool)
    (ray : Ray3) (cameraPosition : Vec3R) : Option Vec3R :=
  if 0 < points.length ∧ useFixedDistance = false then
    let lastPoint := points.getLastD ⟨0, 0, 0⟩
    match intersectPlane ray (normalizeR (subVectors cameraPosition lastPoint)) lastPoint with
    | some intersection => some (clampToLastPoint lastPoint intersection)
    | none => none
  else none

/-- LineTool.getIntersectionPoint (LineTool.ts lines 111-192).  objectHits is
the list of intersection points of the ray with the drawable scene objects,
ordered by distance (raycaster.intersectObjects, an engine primitive).  After
the plane block, the first object hit is used (exactly for a first point or in
useFixedDistance mode, clamped otherwise), and if there is no hit at all the
fallback is the point 3 world units in front of the camera along its view
direction (lines 186-191). -/
noncomputable def getIntersectionPoint (points : List Vec3R) (useFixedDistance : Bool)
    (ray : Ray3) (cameraPosition cameraDirection : Vec3R)
    (objectHits : List Vec3R) : Option Vec3R :=
  match planePhase points useFixedDistance ray cameraPosition with
  | some result => some result
  | none =>
    match objectHits with
    | firstHit :: _ =>
      if points.length = 0 ∨ useFixedDistance = true then some firstHit
      else some (clampToLastPoint (points.getLastD ⟨0, 0, 0⟩) firstHit)
    | [] => some (addR cameraPosition (smulR 3 cameraDirection))

end LineTool

/-- A LineTool mid-session: capturing, three points placed (the example scenario
of the specification), polyline buffer object 0 and preview segment 1 in the
scene, empty history. -/
def lineEx3 : LineToolState :=
  { isDrawing := true
  , points := [⟨0, 0, 0⟩, ⟨2, 0, 0⟩, ⟨2, 0, 2⟩]
  , currentLine := some 0
  , tempLines := [1]
  , history := []
  , historyIndex := -1
  , scene := [0, 1]
  , pendingClick := none
  , clickCount := 0
  , cancelCount := 0
  , disposed := []
  , controlsEnabled := true
  , listenKeydown := true
  , listenMousedown := true
  , listenMousemove := true
  , listenDblclick := true
  , nextId := 2 }

/-- A LineTool mid-session with only two captured points. -/
def lineEx2 : LineToolState :=
  { lineEx3 with points := [⟨0, 0, 0⟩, ⟨2, 0, 0⟩] }

/-- An idle LineTool whose history holds one committed mesh (object 5) with the
cursor on it. -/
def lineHist : LineToolState :=
  { isDrawing := false
  , points := []
  , currentLine := none
  , tempLines := []
  , history := [5]
  , historyIndex := 0
  , scene := [5]
  , pendingClick := none
  , clickCount := 0
  , cancelCount := 0
  , disposed := []
  , controlsEnabled := true
  , listenKeydown := true
  , listenMousedown := true
  , listenMousemove := true
  , listenDblclick := true
  , nextId := 6 }

/-- A RectangleTool mid-drag: drawing, provisional rectangle mesh 7 in the
scene, camera controls force-disabled for the gesture. -/
def rectEx : RectToolState :=
  { isDrawing := true
  , startPoint := some ⟨0, 0, 0⟩
  , currentMesh := some 7
  , history := []
  , historyIndex := -1
  , scene := [7]
  , controlsEnabled := false
  , originalControlsEnabled := true
  , cancelCount := 0
  , listenMousedown := true
  , listenMousemove := true
  , listenMouseup := true
  , nextId := 8 }

/-- An idle RectangleTool whose history holds one committed rectangle (object
3) with the cursor on it. -/
def rectHist : RectToolState :=
  { isDrawing := false
  , startPoint := none
  , currentMesh := none
  , history := [3]
  , historyIndex := 0
  , scene := [3]
  , controlsEnabled := true
  , originalControlsEnabled := true
  , cancelCount := 0
  , listenMousedown := true
  , listenMousemove := true
  , listenMouseup := true
  , nextId := 4 }

/-- An idle RectangleTool observed while camera navigation is switched off
(controls.enabled = false) before the tool is enabled. -/
def rectFlagOff : RectToolState :=
  { isDrawing := false
  , startPoint := none
  , currentMesh := none
  , history := []
  , historyIndex := -1
  , scene := []
  , controlsEnabled := false
  , originalControlsEnabled := true
  , cancelCount := 0
  , listenMousedown := false
  , listenMousemove := false
  , listenMouseup := false
  , nextId := 0 }

/-- A SelectionTool mid-marquee-drag with nothing selected. -/
def selEx : SelToolState :=
  { selectedObjects := []
  , helpers := []
  , isDragging := true
  , controlsEnabled := false
  , originalControlsEnabled := true
  , listenMousedown := true
  , listenMousemove := true
  , listenMouseup := true }

/-- A SelectionTool with two selected objects, each carrying its highlight. -/
def selEx9 : SelToolState :=
  { selectedObjects := [4, 5]
  , helpers := [4, 5]
  , isDragging := false
  , controlsEnabled := false
  , originalControlsEnabled := true
  , listenMousedown := true
  , listenMousemove := true
  , listenMouseup := true }

/-- Two candidate scene solids with camera-projected viewport positions (0,0)
and (0.5,0.5), as in the marquee example of the specification. -/
def cands1 : List (Nat × Vec2) :=
  [(10, ⟨0, 0⟩), (20, ⟨mkRat 1 2, mkRat 1 2⟩)]

/-- The normalized viewport rectangle with corners (-1,-1) and (1,1). -/
def boxFull : Box2 :=
  ⟨⟨-1, -1⟩, ⟨1, 1⟩⟩

/-- The normalized viewport rectangle with corners (0.6,0.6) and (1,1). -/
def boxCorner : Box2 :=
  ⟨⟨mkRat 3 5, mkRat 3 5⟩, ⟨1, 1⟩⟩

/-! Helper lemmas about the LineTool drawing state machine. -/

theorem hdc_three_spec (s : LineToolState) (hdraw : s.isDrawing = true)
    (hlen : 3 ≤ s.points.length) :
    LineTool.createMeshFromPoints s.points = some ⟨s.points⟩
    ∧ (LineTool.handleDoubleClick s).isDrawing = false
    ∧ (LineTool.handleDoubleClick s).points = []
    ∧ (LineTool.handleDoubleClick s).currentLine = none
    ∧ (LineTool.handleDoubleClick s).tempLines = []
    ∧ (LineTool.handleDoubleClick s).history
        = jsSliceTo s.history (s.historyIndex + 1) ++ [s.nextId]
    ∧ (LineTool.handleDoubleClick s).historyIndex = s.historyIndex + 1
    ∧ (LineTool.handleDoubleClick s).scene
        = LineTool.removeTransient s (sceneAdd s.scene s.nextId)
    ∧ (LineTool.handleDoubleClick s).nextId = s.nextId + 1
    ∧ (LineTool.handleDoubleClick s).clickCount = s.clickCount
    ∧ (LineTool.handleDoubleClick s).pendingClick = s.pendingClick
    ∧ (LineTool.handleDoubleClick s).cancelCount = s.cancelCount := by
  have hmesh : LineTool.createMeshFromPoints s.points = some ⟨s.points⟩ := by
    unfold LineTool.createMeshFromPoints
    rw [if_neg (by omega)]
  refine ⟨hmesh, ?_⟩
  unfold LineTool.handleDoubleClick
  rw [if_pos ⟨hdraw, by omega⟩, hmesh]
  rcases h : s.currentLine with _ | l <;>
    simp [LineTool.resetDrawing, LineTool.clearTempLines, LineTool.removeTransient, h]

theorem hdc_two_spec (s : LineToolState) (hdraw : s.isDrawing = true)
    (hlen : s.points.length = 2) :
    LineTool.createMeshFromPoints s.points = none
    ∧ (LineTool.handleDoubleClick s).isDrawing = false
    ∧ (LineTool.handleDoubleClick s).points = []
    ∧ (LineTool.handleDoubleClick s).currentLine = none
    ∧ (LineTool.handleDoubleClick s).tempLines = []
    ∧ (LineTool.handleDoubleClick s).history = s.history
    ∧ (LineTool.handleDoubleClick s).historyIndex = s.historyIndex
    ∧ (LineTool.handleDoubleClick s).scene = LineTool.removeTransient s s.scene
    ∧ (LineTool.handleDoubleClick s).nextId = s.nextId
    ∧ (LineTool.handleDoubleClick s).clickCount = s.clickCount
    ∧ (LineTool.handleDoubleClick s).pendingClick = s.pendingClick
    ∧ (LineTool.handleDoubleClick s).cancelCount = s.cancelCount := by
  have hmesh : LineTool.createMeshFromPoints s.points = none := by
    unfold LineTool.createMeshFromPoints
    rw [if_pos (by omega)]
  refine ⟨hmesh, ?_⟩
  unfold LineTool.handleDoubleClick
  rw [if_pos ⟨hdraw, by omega⟩, hmesh]
  rcases h : s.currentLine with _ | l <;>
    simp [LineTool.resetDrawing, LineTool.clearTempLines, LineTool.removeTransient, h]

theorem doubleClick_eq (s : LineToolState) (p q : Vec3) (hclick : s.clickCount = 0) :
    LineTool.doubleClick p q s
      = { LineTool.handleDoubleClick
            { s with clickCount := 2, pendingClick := none } with clickCount := 0 } := by
  unfold LineTool.doubleClick LineTool.onMouseDown
  simp [hclick]

/-- Claim C1 (amended): while Capturing with at least 2 points and no click
pending, a double-click (two clicks within 250 ms, the second cancelling the
pending single-click timer) invokes the Solid Assembler, discards the
in-progress Polyline and PreviewSegment and returns the tool to Idle; when at
least 3 points were captured, exactly one CommittedShape is added to the scene
and pushed onto the History Stack with the cursor advancing by exactly 1, but
with exactly 2 points the assembler returns null, so no CommittedShape is
created and the History Stack is unchanged. -/
theorem claim_C1_amended (s : LineToolState) (p q : Vec3)
    (hclick : s.clickCount = 0) (hdraw : s.isDrawing = true)
    (hlen : 2 ≤ s.points.length) :
    (LineTool.doubleClick p q s).isDrawing = false
    ∧ (LineTool.doubleClick p q s).points = []
    ∧ (LineTool.doubleClick p q s).currentLine = none
    ∧ (LineTool.doubleClick p q s).tempLines = []
    ∧ (LineTool.doubleClick p q s).pendingClick = none
    ∧ (LineTool.doubleClick p q s).clickCount = 0
    ∧ (3 ≤ s.points.length →
        LineTool.createMeshFromPoints s.points = some ⟨s.points⟩
        ∧ (LineTool.doubleClick p q s).history
            = jsSliceTo s.history (s.historyIndex + 1) ++ [s.nextId]
        ∧ (LineTool.doubleClick p q s).historyIndex = s.historyIndex + 1
        ∧ (LineTool.doubleClick p q s).scene
            = LineTool.removeTransient s (sceneAdd s.scene s.nextId)
        ∧ (LineTool.doubleClick p q s).nextId = s.nextId + 1)
    ∧ (s.points.length = 2 →
        LineTool.createMeshFromPoints s.points = none
        ∧ (LineTool.doubleClick p q s).history = s.history
        ∧ (LineTool.doubleClick p q s).historyIndex = s.historyIndex
        ∧ (LineTool.doubleClick p q s).scene = LineTool.removeTransient s s.scene
        ∧ (LineTool.doubleClick p q s).nextId = s.nextId) := by
  rw [doubleClick_eq s p q hclick]
  rcases Nat.lt_or_ge s.points.length 3 with hlt | hge
  · have hlen2 : s.points.length = 2 := by omega
    obtain ⟨m0, a1, a2, a3, a4, a5, a6, a7, a8, a9, a10, a11⟩ :=
      hdc_two_spec { s with clickCount := 2, pendingClick := none } hdraw hlen2
    exact ⟨a1, a2, a3, a4, a10, rfl,
      fun h3 => absurd h3 (by omega),
      fun _ => ⟨m0, a5, a6, a7, a8⟩⟩
  · obtain ⟨m0, a1, a2, a3, a4, a5, a6, a7, a8, a9, a10, a11⟩ :=
      hdc_three_spec { s with clickCount := 2, pendingClick := none } hdraw hge
    exact ⟨a1, a2, a3, a4, a10, rfl,
      fun _ => ⟨m0, a5, a6, a7, a8⟩,
      fun h2 => absurd h2 (by omega)⟩

/-- Claim C1 counterexample: in a Capturing session with exactly two captured
points (state lineEx2), a double-click leaves the history empty and the cursor
unchanged and allocates no new scene object, refuting the claimed commit with
cursor advance for sessions with at least 2 (but fewer than 3) points. -/
theorem claim_C1_counterexample :
    lineEx2.isDrawing = true ∧ lineEx2.points.length = 2 ∧ lineEx2.clickCount = 0
    ∧ (LineTool.doubleClick ⟨2, 0, 0⟩ ⟨2, 0, 0⟩ lineEx2).history = []
    ∧ (LineTool.doubleClick ⟨2, 0, 0⟩ ⟨2, 0, 0⟩ lineEx2).historyIndex
        = lineEx2.historyIndex
    ∧ ¬((LineTool.doubleClick ⟨2, 0, 0⟩ ⟨2, 0, 0⟩ lineEx2).historyIndex
          = lineEx2.historyIndex + 1)
    ∧ (LineTool.doubleClick ⟨2, 0, 0⟩ ⟨2, 0, 0⟩ lineEx2).nextId = lineEx2.nextId := by
  decide

/-- Claim C1 witness: the amended claim applied to the three-point session
lineEx3 — the double-click commits and the cursor advances from -1 to 0. -/
theorem claim_C1_witness :
    lineEx3.clickCount = 0 ∧ lineEx3.isDrawing = true ∧ 2 ≤ lineEx3.points.length
    ∧ (LineTool.doubleClick ⟨2, 0, 2⟩ ⟨2, 0, 2⟩ lineEx3).historyIndex
        = lineEx3.historyIndex + 1
    ∧ (LineTool.doubleClick ⟨2, 0, 2⟩ ⟨2, 0, 2⟩ lineEx3).isDrawing = false := by
  have h := claim_C1_amended lineEx3 ⟨2, 0, 2⟩ ⟨2, 0, 2⟩ rfl rfl (by decide)
  obtain ⟨hidle, -, -, -, -, -, h3, -⟩ := h
  obtain ⟨-, -, hidx, -, -⟩ := h3 (by decide)
  exact ⟨rfl, rfl, by decide, hidx, hidle⟩

/-! Helper lemmas about the history stacks. -/

theorem jsSliceTo_length_nonneg (l : List α) (e : Int) (he : 0 ≤ e) :
    (jsSliceTo l e).length = min e.toNat l.length := by
  unfold jsSliceTo
  rw [if_neg (by omega)]
  exact List.length_take _ _

theorem line_redo_hdc_fails (s : LineToolState) (hwf : LineTool.WF s)
    (hdraw : s.isDrawing = true) (hlen : 3 ≤ s.points.length) :
    LineTool.redo (LineTool.handleDoubleClick s)
      = (LineTool.handleDoubleClick s, false) := by
  obtain ⟨hlo, hhi⟩ := hwf
  obtain ⟨-, -, -, -, -, hhist, hidx, -⟩ := hdc_three_spec s hdraw hlen
  have hcond : ¬((LineTool.handleDoubleClick s).historyIndex
      < ((LineTool.handleDoubleClick s).history.length : Int) - 1) := by
    rw [hidx, hhist]
    have hs : (jsSliceTo s.history (s.historyIndex + 1)).length
        = (s.historyIndex + 1).toNat := by
      rw [jsSliceTo_length_nonneg _ _ (by omega)]
      omega
    rw [List.length_append, hs]
    simp only [List.length_singleton]
    push_cast
    omega
  unfold LineTool.redo
  rw [if_neg hcond]

theorem line_undo_fields (s : LineToolState) :
    (LineTool.undo s).1.isDrawing = s.isDrawing
    ∧ (LineTool.undo s).1.points = s.points
    ∧ (LineTool.undo s).1.nextId = s.nextId
    ∧ (LineTool.undo s).1.history = s.history
    ∧ (LineTool.WF s → LineTool.WF (LineTool.undo s).1) := by
  unfold LineTool.undo
  by_cases h : 0 ≤ s.historyIndex
  · rw [if_pos h]
    refine ⟨rfl, rfl, rfl, rfl, fun hw => ?_⟩
    obtain ⟨h1, h2⟩ := hw
    exact ⟨show -1 ≤ s.historyIndex - 1 by omega,
           show s.historyIndex - 1 < (s.history.length : Int) by omega⟩
  · rw [if_neg h]
    exact ⟨rfl, rfl, rfl, rfl, id⟩

theorem line_undoIter_fields (k : Nat) (s : LineToolState) :
    (LineTool.undoIter k s).isDrawing = s.isDrawing
    ∧ (LineTool.undoIter k s).points = s.points
    ∧ (LineTool.undoIter k s).nextId = s.nextId
    ∧ (LineTool.WF s → LineTool.WF (LineTool.undoIter k s)) := by
  induction k generalizing s with
  | zero => exact ⟨rfl, rfl, rfl, id⟩
  | succ k ih =>
    obtain ⟨u1, u2, u3, -, u5⟩ := line_undo_fields s
    obtain ⟨i1, i2, i3, i4⟩ := ih (LineTool.undo s).1
    exact ⟨i1.trans u1, i2.trans u2, i3.trans u3, fun hw => i4 (u5 hw)⟩

theorem rect_mouseUp_spec (s : RectToolState) (m : Nat)
    (hdraw : s.isDrawing = true) (hm : s.currentMesh = some m) :
    (RectangleTool.onMouseUp s).history
        = jsSliceTo s.history (s.historyIndex + 1) ++ [m]
    ∧ (RectangleTool.onMouseUp s).historyIndex = s.historyIndex + 1
    ∧ (RectangleTool.onMouseUp s).isDrawing = false
    ∧ (RectangleTool.onMouseUp s).startPoint = none
    ∧ (RectangleTool.onMouseUp s).currentMesh = none
    ∧ (RectangleTool.onMouseUp s).controlsEnabled = s.originalControlsEnabled
    ∧ (RectangleTool.onMouseUp s).scene = s.scene := by
  unfold RectangleTool.onMouseUp
  simp only [hdraw, hm]
  simp [RectangleTool.resetDrawing]

theorem rect_redo_commit_fails (s : RectToolState) (m : Nat)
    (hwf : RectangleTool.WF s)
    (hdraw : s.isDrawing = true) (hm : s.currentMesh = some m) :
    RectangleTool.redo (RectangleTool.onMouseUp s)
      = (RectangleTool.onMouseUp s, none) := by
  obtain ⟨hlo, hhi⟩ := hwf
  obtain ⟨hhist, hidx, -⟩ := rect_mouseUp_spec s m hdraw hm
  have hcond : ¬((RectangleTool.onMouseUp s).historyIndex
      < ((RectangleTool.onMouseUp s).history.length : Int) - 1) := by
    rw [hidx, hhist]
    have hs : (jsSliceTo s.history (s.historyIndex + 1)).length
        = (s.historyIndex + 1).toNat := by
      rw [jsSliceTo_length_nonneg _ _ (by omega)]
      omega
    rw [List.length_append, hs]
    simp only [List.length_singleton]
    push_cast
    omega
  unfold RectangleTool.redo
  rw [if_neg hcond]

theorem rect_undo_fields (s : RectToolState) :
    (RectangleTool.undo s).1.isDrawing = s.isDrawing
    ∧ (RectangleTool.undo s).1.currentMesh = s.currentMesh
    ∧ (RectangleTool.undo s).1.history = s.history
    ∧ (RectangleTool.WF s → RectangleTool.WF (RectangleTool.undo s).1) := by
  unfold RectangleTool.undo
  by_cases h : 0 ≤ s.historyIndex
  · rw [if_pos h]
    refine ⟨rfl, rfl, rfl, fun hw => ?_⟩
    obtain ⟨h1, h2⟩ := hw
    exact ⟨show -1 ≤ s.historyIndex - 1 by omega,
           show s.historyIndex - 1 < (s.history.length : Int) by omega⟩
  · rw [if_neg h]
    exact ⟨rfl, rfl, rfl, id⟩

theorem rect_undoIter_fields (k : Nat) (s : RectToolState) :
    (RectangleTool.undoIter k s).isDrawing = s.isDrawing
    ∧ (RectangleTool.undoIter k s).currentMesh = s.currentMesh
    ∧ (RectangleTool.WF s → RectangleTool.WF (RectangleTool.undoIter k s)) := by
  induction k generalizing s with
  | zero => exact ⟨rfl, rfl, id⟩
  | succ k ih =>
    obtain ⟨u1, u2, -, u4⟩ := rect_undo_fields s
    obtain ⟨i1, i2, i3⟩ := ih (RectangleTool.undo s).1
    exact ⟨i1.trans u1, i2.trans u2, fun hw => i3 (u4 hw)⟩

/-- Claim C2: the history stacks are linear and branch-discarding — committing
a shape (LineTool double-click finalization, RectangleTool mouse-up) first
truncates all entries beyond the cursor and then appends the new entry, and
after any number of undo() calls followed by a fresh commit, redo() fails (it
returns false for LineTool and leaves the state untouched for both tools). -/
theorem claim_C2 :
    (∀ s : LineToolState, s.isDrawing = true → 3 ≤ s.points.length →
        (LineTool.handleDoubleClick s).history
            = jsSliceTo s.history (s.historyIndex + 1) ++ [s.nextId]
        ∧ (LineTool.handleDoubleClick s).historyIndex = s.historyIndex + 1)
    ∧ (∀ (s : LineToolState) (k : Nat), LineTool.WF s → s.isDrawing = true →
        3 ≤ s.points.length →
        LineTool.redo (LineTool.handleDoubleClick (LineTool.undoIter k s))
          = (LineTool.handleDoubleClick (LineTool.undoIter k s), false))
    ∧ (∀ (s : RectToolState) (m : Nat), s.isDrawing = true →
        s.currentMesh = some m →
        (RectangleTool.onMouseUp s).history
            = jsSliceTo s.history (s.historyIndex + 1) ++ [m]
        ∧ (RectangleTool.onMouseUp s).historyIndex = s.historyIndex + 1)
    ∧ (∀ (s : RectToolState) (m k : Nat), RectangleTool.WF s →
        s.isDrawing = true → s.currentMesh = some m →
        RectangleTool.redo (RectangleTool.onMouseUp (RectangleTool.undoIter k s))
          = (RectangleTool.onMouseUp (RectangleTool.undoIter k s), none)) := by
  refine ⟨?_, ?_, ?_, ?_⟩
  · intro s hdraw hlen
    obtain ⟨-, -, -, -, -, hhist, hidx, -⟩ := hdc_three_spec s hdraw hlen
    exact ⟨hhist, hidx⟩
  · intro s k hwf hdraw hlen
    obtain ⟨i1, i2, -, i4⟩ := line_undoIter_fields k s
    exact line_redo_hdc_fails _ (i4 hwf) (i1.trans hdraw) (i2 ▸ hlen)
  · intro s m hdraw hm
    obtain ⟨hhist, hidx, -⟩ := rect_mouseUp_spec s m hdraw hm
    exact ⟨hhist, hidx⟩
  · intro s m k hwf hdraw hm
    obtain ⟨i1, i2, i3⟩ := rect_undoIter_fields k s
    exact rect_redo_commit_fails _ m (i3 hwf) (i1.trans hdraw) (i2.trans hm)

/-- Claim C2 witness: one undo followed by a fresh commit on the concrete
three-point line session and on the concrete rectangle drag — redo fails on
both resulting states. -/
theorem claim_C2_witness :
    LineTool.WF lineEx3 ∧ lineEx3.isDrawing = true ∧ 3 ≤ lineEx3.points.length
    ∧ LineTool.redo (LineTool.handleDoubleClick (LineTool.undoIter 1 lineEx3))
        = (LineTool.handleDoubleClick (LineTool.undoIter 1 lineEx3), false)
    ∧ RectangleTool.WF rectEx ∧ rectEx.isDrawing = true
    ∧ rectEx.currentMesh = some 7
    ∧ RectangleTool.redo (RectangleTool.onMouseUp (RectangleTool.undoIter 1 rectEx))
        = (RectangleTool.onMouseUp (RectangleTool.undoIter 1 rectEx), none)
    ∧ (LineTool.handleDoubleClick lineEx3).history = [2] := by
  refine ⟨by decide, rfl, by decide,
    claim_C2.2.1 lineEx3 1 (by decide) rfl (by decide),
    by decide, rfl, rfl,
    claim_C2.2.2.2 rectEx 7 1 (by decide) rfl rfl,
    by decide⟩

/-- Claim C3 (amended): undo() removes the object at the cursor from the scene
and decrements the cursor, and is a no-op when the cursor is below 0; redo()
re-inserts the object after the cursor into the scene and increments the
cursor, and is a no-op when the cursor is at the end of the list.  LineTool's
undo/redo report success as booleans (true on mutation, false on the no-op);
RectangleTool's undo/redo perform the same mutations but return no value
(undefined), never a boolean. -/
theorem claim_C3_amended :
    (∀ s : LineToolState, 0 ≤ s.historyIndex →
        LineTool.undo s
          = ({ s with
                scene := sceneRemove s.scene (s.history.getD s.historyIndex.toNat 0)
              , historyIndex := s.historyIndex - 1 }, true))
    ∧ (∀ s : LineToolState, s.historyIndex < 0 → LineTool.undo s = (s, false))
    ∧ (∀ s : LineToolState, s.historyIndex < (s.history.length : Int) - 1 →
        LineTool.redo s
          = ({ s with
                historyIndex := s.historyIndex + 1
              , scene := sceneAdd s.scene
                  (s.history.getD (s.historyIndex + 1).toNat 0) }, true))
    ∧ (∀ s : LineToolState, ¬(s.historyIndex < (s.history.length : Int) - 1) →
        LineTool.redo s = (s, false))
    ∧ (∀ s : RectToolState, 0 ≤ s.historyIndex →
        RectangleTool.undo s
          = ({ s with
                scene := sceneRemove s.scene (s.history.getD s.historyIndex.toNat 0)
              , historyIndex := s.historyIndex - 1 }, none))
    ∧ (∀ s : RectToolState, s.historyIndex < 0 → RectangleTool.undo s = (s, none))
    ∧ (∀ s : RectToolState, s.historyIndex < (s.history.length : Int) - 1 →
        RectangleTool.redo s
          = ({ s with
                historyIndex := s.historyIndex + 1
              , scene := sceneAdd s.scene
                  (s.history.getD (s.historyIndex + 1).toNat 0) }, none))
    ∧ (∀ s : RectToolState, ¬(s.historyIndex < (s.history.length : Int) - 1) →
        RectangleTool.redo s = (s, none)) := by
  refine ⟨?_, ?_, ?_, ?_, ?_, ?_, ?_, ?_⟩ <;> intro s h
  · unfold LineTool.undo
    rw [if_pos h]
  · unfold LineTool.undo
    rw [if_neg (by omega)]
  · unfold LineTool.redo
    rw [if_pos h]
  · unfold LineTool.redo
    rw [if_neg h]
  · unfold RectangleTool.undo
    rw [if_pos h]
  · unfold RectangleTool.undo
    rw [if_neg (by omega)]
  · unfold RectangleTool.redo
    rw [if_pos h]
  · unfold RectangleTool.redo
    rw [if_neg h]

/-- Claim C3 counterexample: on the concrete RectangleTool state rectHist the
cursor is 0, so the claim asserts undo() returns true (boolean success), yet
the call returns no boolean (undefined); the subsequent successful redo()
likewise returns no boolean. -/
theorem claim_C3_counterexample :
    (0 : Int) ≤ rectHist.historyIndex
    ∧ (RectangleTool.undo rectHist).2 ≠ some true
    ∧ (RectangleTool.redo (RectangleTool.undo rectHist).1).2 ≠ some true := by
  decide

/-- Claim C3 witness: all eight cases of the amended claim exercised on
concrete states — successful and failing undo/redo of both tools. -/
theorem claim_C3_witness :
    ((0 : Int) ≤ lineHist.historyIndex ∧ (LineTool.undo lineHist).2 = true)
    ∧ (lineEx3.historyIndex < 0 ∧ LineTool.undo lineEx3 = (lineEx3, false))
    ∧ ((LineTool.undo lineHist).1.historyIndex
          < (((LineTool.undo lineHist).1.history.length : Int)) - 1
        ∧ (LineTool.redo (LineTool.undo lineHist).1).2 = true)
    ∧ (¬(lineHist.historyIndex < ((lineHist.history.length : Int)) - 1)
        ∧ LineTool.redo lineHist = (lineHist, false))
    ∧ ((0 : Int) ≤ rectHist.historyIndex ∧ (RectangleTool.undo rectHist).2 = none)
    ∧ (rectEx.historyIndex < 0 ∧ RectangleTool.undo rectEx = (rectEx, none))
    ∧ ((RectangleTool.undo rectHist).1.historyIndex
          < (((RectangleTool.undo rectHist).1.history.length : Int)) - 1
        ∧ (RectangleTool.redo (RectangleTool.undo rectHist).1).2 = none)
    ∧ (¬(rectHist.historyIndex < ((rectHist.history.length : Int)) - 1)
        ∧ RectangleTool.redo rectHist = (rectHist, none)) := by
  refine ⟨⟨by decide, ?_⟩, ⟨by decide, ?_⟩, ⟨by decide, ?_⟩, ⟨by decide, ?_⟩,
         ⟨by decide, ?_⟩, ⟨by decide, ?_⟩, ⟨by decide, ?_⟩, ⟨by decide, ?_⟩⟩
  · rw [claim_C3_amended.1 lineHist (by decide)]
  · exact claim_C3_amended.2.1 lineEx3 (by decide)
  · rw [claim_C3_amended.2.2.1 (LineTool.undo lineHist).1 (by decide)]
  · exact claim_C3_amended.2.2.2.1 lineHist (by decide)
  · rw [claim_C3_amended.2.2.2.2.1 rectHist (by decide)]
  · exact claim_C3_amended.2.2.2.2.2.1 rectEx (by decide)
  · rw [claim_C3_amended.2.2.2.2.2.2.1 (RectangleTool.undo rectHist).1 (by decide)]
  · exact claim_C3_amended.2.2.2.2.2.2.2 rectHist (by decide)

/-! Helper lemmas about the selection engine. -/

theorem foldl_removeHighlight_spec (l : List Nat) (st : SelToolState) :
    l.foldl (fun acc o => SelectionTool.removeHighlight o acc) st
      = { st with helpers := l.foldl List.erase st.helpers } := by
  induction l generalizing st with
  | nil => rfl
  | cons a l ih =>
    show l.foldl _ (SelectionTool.removeHighlight a st) = _
    rw [ih]
    rfl

theorem clearSelection_eq (st : SelToolState) :
    SelectionTool.clearSelection st
      = { st with selectedObjects := []
                , helpers := st.selectedObjects.foldl List.erase st.helpers } := by
  unfold SelectionTool.clearSelection
  rw [foldl_removeHighlight_spec]

/-- Claim C4 (amended): SelectionTool and ExtrudeTool capture the camera
controller's enabled flag on enable(), force-disable navigation, and restore
exactly the captured value on disable().  RectangleTool's enable() leaves the
flag untouched; it captures the flag on mouse-down and restores it on
mouse-up, but its disable() sets the flag to true unconditionally, so a
pre-enable value of false is not restored.  LineTool stores the controller but
never reads or writes the flag. -/
theorem claim_C4_amended :
    (∀ s : SelToolState,
        (SelectionTool.enable s).controlsEnabled = false
        ∧ (SelectionTool.enable s).originalControlsEnabled = s.controlsEnabled
        ∧ (SelectionTool.disable (SelectionTool.enable s)).controlsEnabled
            = s.controlsEnabled)
    ∧ (∀ s : ExtrudeToolState,
        (ExtrudeTool.enable s).controlsEnabled = false
        ∧ (ExtrudeTool.enable s).originalControlsEnabled = s.controlsEnabled
        ∧ (ExtrudeTool.disable (ExtrudeTool.enable s)).controlsEnabled
            = s.controlsEnabled)
    ∧ (∀ s : RectToolState,
        (RectangleTool.enable s).controlsEnabled = s.controlsEnabled
        ∧ (RectangleTool.disable s).controlsEnabled = true)
    ∧ (∀ (s : RectToolState) (p : Vec3),
        (RectangleTool.onMouseDown p s).controlsEnabled = false
        ∧ (RectangleTool.onMouseDown p s).originalControlsEnabled = s.controlsEnabled
        ∧ (RectangleTool.onMouseUp (RectangleTool.onMouseDown p s)).controlsEnabled
            = s.controlsEnabled)
    ∧ (∀ s : LineToolState,
        (LineTool.enable s).controlsEnabled = s.controlsEnabled
        ∧ (LineTool.disable s).controlsEnabled = s.controlsEnabled) := by
  refine ⟨?_, ?_, ?_, ?_, ?_⟩
  · intro s
    refine ⟨rfl, rfl, ?_⟩
    unfold SelectionTool.disable
    rw [clearSelection_eq]
    rfl
  · intro s
    refine ⟨rfl, rfl, ?_⟩
    unfold ExtrudeTool.disable ExtrudeTool.enable ExtrudeTool.deselectObject
    rcases h : s.selectedObject with _ | o <;> simp [h]
  · intro s
    exact ⟨rfl, rfl⟩
  · intro s p
    exact ⟨rfl, rfl, rfl⟩
  · intro s
    exact ⟨rfl, rfl⟩

/-- Claim C4 counterexample: with camera navigation initially off
(rectFlagOff), enabling then disabling the RectangleTool leaves the camera
controller's enabled flag at true, not at its pre-enable value false. -/
theorem claim_C4_counterexample :
    rectFlagOff.controlsEnabled = false
    ∧ (RectangleTool.disable (RectangleTool.enable rectFlagOff)).controlsEnabled = true
    ∧ (RectangleTool.disable (RectangleTool.enable rectFlagOff)).controlsEnabled
        ≠ rectFlagOff.controlsEnabled := by
  decide

/-- Claim C7: pressing Escape while Capturing cancels the session atomically —
the in-progress Polyline and PreviewSegments are removed from the scene and
disposed, no CommittedShape is created (no object allocated), the History Stack
entries and cursor are unchanged, the tool returns to Idle, and the
cancellation callback is invoked exactly once. -/
theorem claim_C7 (s : LineToolState) (hdraw : s.isDrawing = true) :
    (LineTool.handleKeyDown "Escape" s).isDrawing = false
    ∧ (LineTool.handleKeyDown "Escape" s).points = []
    ∧ (LineTool.handleKeyDown "Escape" s).currentLine = none
    ∧ (LineTool.handleKeyDown "Escape" s).tempLines = []
    ∧ (LineTool.handleKeyDown "Escape" s).history = s.history
    ∧ (LineTool.handleKeyDown "Escape" s).historyIndex = s.historyIndex
    ∧ (LineTool.handleKeyDown "Escape" s).nextId = s.nextId
    ∧ (LineTool.handleKeyDown "Escape" s).scene = LineTool.removeTransient s s.scene
    ∧ (LineTool.handleKeyDown "Escape" s).cancelCount = s.cancelCount + 1
    ∧ (∀ l, s.currentLine = some l → l ∈ (LineTool.handleKeyDown "Escape" s).disposed)
    ∧ (∀ t ∈ s.tempLines, t ∈ (LineTool.handleKeyDown "Escape" s).disposed) := by
  unfold LineTool.handleKeyDown
  rw [if_pos ⟨rfl, hdraw⟩]
  unfold LineTool.cancelDrawing
  rcases h : s.currentLine with _ | l <;>
    simp [LineTool.resetDrawing, LineTool.clearTempLines, LineTool.removeTransient, h] <;>
    exact fun t ht => Or.inr (by simp [ht])

/-- Claim C7 witness: Escape on the concrete two-point Capturing session
lineEx2 — history untouched, callback count 1, both transient lines gone from
the scene. -/
theorem claim_C7_witness :
    lineEx2.isDrawing = true
    ∧ (LineTool.handleKeyDown "Escape" lineEx2).history = lineEx2.history
    ∧ (LineTool.handleKeyDown "Escape" lineEx2).historyIndex = lineEx2.historyIndex
    ∧ (LineTool.handleKeyDown "Escape" lineEx2).cancelCount = 1
    ∧ (LineTool.handleKeyDown "Escape" lineEx2).scene = []
    ∧ (LineTool.handleKeyDown "Escape" lineEx2).isDrawing = false := by
  obtain ⟨a1, a2, a3, a4, a5, a6, a7, a8, a9, a10, a11⟩ := claim_C7 lineEx2 rfl
  exact ⟨rfl, a5, a6, a9.trans (by decide), a8.trans (by decide), a1⟩

/-- Claim C8 (amended): LineTool.enable removes the tool's existing listener
registrations first (it calls disable) and is idempotent — enabling twice
equals enabling once, and enabling equals disabling then enabling.
RectangleTool.enable only adds its three listeners: it is also idempotent
(registering the same handler again is a no-op, so no duplicate registration
can arise), but it is not self-disabling first — it does not clear in-progress
drawing state the way its disable() does. -/
theorem claim_C8_amended :
    (∀ s : LineToolState, LineTool.enable (LineTool.enable s) = LineTool.enable s)
    ∧ (∀ s : LineToolState, LineTool.enable s = LineTool.enable (LineTool.disable s))
    ∧ (∀ s : RectToolState,
        RectangleTool.enable (RectangleTool.enable s) = RectangleTool.enable s) := by
  refine ⟨?_, ?_, fun s => rfl⟩ <;> intro s <;>
    (unfold LineTool.enable LineTool.disable LineTool.resetDrawing
       LineTool.clearTempLines
     simp)

/-- Claim C8 counterexample: on the mid-drag RectangleTool state rectEx,
enable() differs from disable-then-enable (the latter resets the drawing
state), so RectangleTool.enable does not remove existing registrations and
state via a disable-first step as the claim asserts for every tool. -/
theorem claim_C8_counterexample :
    rectEx.isDrawing = true
    ∧ RectangleTool.enable rectEx
        ≠ RectangleTool.enable (RectangleTool.disable rectEx) := by
  decide

theorem selectObject_fresh_selected (o : Nat) (st : SelToolState)
    (h : o ∉ st.selectedObjects) :
    (SelectionTool.selectObject o st).selectedObjects
      = st.selectedObjects ++ [o] := by
  unfold SelectionTool.selectObject
  rw [if_neg h]
  rfl

theorem foldl_selectObject_fresh (l : List (Nat × Vec2)) (st : SelToolState)
    (hnd : (l.map Prod.fst).Nodup)
    (hdisj : ∀ c ∈ l, c.1 ∉ st.selectedObjects) :
    (l.foldl (fun acc c => SelectionTool.selectObject c.1 acc) st).selectedObjects
      = st.selectedObjects ++ l.map Prod.fst := by
  induction l generalizing st with
  | nil => simp
  | cons a l ih =>
    simp only [List.foldl_cons, List.map_cons]
    have ha : a.1 ∉ st.selectedObjects := hdisj a (by simp)
    have hsel := selectObject_fresh_selected a.1 st ha
    obtain ⟨hna, hnd'⟩ := List.nodup_cons.mp hnd
    rw [ih (SelectionTool.selectObject a.1 st) hnd' ?_]
    · rw [hsel, List.append_assoc]
      rfl
    · intro c hc
      rw [hsel, List.mem_append]
      rintro (hin | hin)
      · exact hdisj c (List.mem_cons_of_mem a hc) hin
      · have hca : c.1 = a.1 := by simpa using hin
        exact hna (hca ▸ List.mem_map_of_mem Prod.fst hc)

/-- Claim C6: on pointer-up of a marquee drag (no shift key), exactly the
candidate scene solids whose camera-projected position falls inside the
normalized viewport rectangle become selected, in candidate order. -/
theorem claim_C6 (ndcRect : Box2) (candidates : List (Nat × Vec2))
    (st : SelToolState) (hdrag : st.isDragging = true)
    (hnd : (candidates.map Prod.fst).Nodup) :
    (SelectionTool.onMouseUp ndcRect false candidates st).selectedObjects
      = (candidates.filter
          (fun c => SelectionTool.containsPoint ndcRect c.2)).map Prod.fst := by
  unfold SelectionTool.onMouseUp
  rw [if_neg (by simp [hdrag])]
  simp only [if_pos rfl]
  rw [foldl_selectObject_fresh _ _ ?_ ?_]
  · rw [clearSelection_eq]
    rfl
  · exact hnd.sublist (List.Sublist.map Prod.fst (List.filter_sublist candidates))
  · intro c hc
    rw [clearSelection_eq]
    simp

/-- Claim C6 witness: the two concrete marquee examples — the rectangle with
corners (-1,-1) and (1,1) selects both objects projecting to (0,0) and
(0.5,0.5); the rectangle with corners (0.6,0.6) and (1,1) selects neither. -/
theorem claim_C6_witness :
    selEx.isDragging = true
    ∧ (cands1.map Prod.fst).Nodup
    ∧ (SelectionTool.onMouseUp boxFull false cands1 selEx).selectedObjects = [10, 20]
    ∧ (SelectionTool.onMouseUp boxCorner false cands1 selEx).selectedObjects = [] := by
  refine ⟨rfl, by decide, ?_, ?_⟩
  · rw [claim_C6 boxFull cands1 selEx rfl (by decide)]
    decide
  · rw [claim_C6 boxCorner cands1 selEx rfl (by decide)]
    decide

/-! Preservation lemmas for the highlight invariant. -/

theorem selectObject_inv (o : Nat) (st : SelToolState)
    (h : SelectionTool.SelInv st) :
    SelectionTool.SelInv (SelectionTool.selectObject o st) := by
  obtain ⟨h1, h2, h3, h4⟩ := h
  unfold SelectionTool.selectObject
  by_cases hm : o ∈ st.selectedObjects
  · rw [if_pos hm]
    refine ⟨h1.erase o, h2.erase o, ?_, ?_⟩
    · intro x hx
      obtain ⟨hxo, hxh⟩ := (h2.mem_erase_iff).mp hx
      exact (h1.mem_erase_iff).mpr ⟨hxo, h3 x hxh⟩
    · intro x hx
      obtain ⟨hxo, hxs⟩ := (h1.mem_erase_iff).mp hx
      exact (h2.mem_erase_iff).mpr ⟨hxo, h4 x hxs⟩
  · rw [if_neg hm]
    have ho : o ∉ st.helpers := fun hc => hm (h3 o hc)
    unfold SelectionTool.highlightObject SelectionTool.removeHighlight
    refine ⟨?_, ?_, ?_, ?_⟩
    · simpa [List.nodup_append] using ⟨h1, hm⟩
    · rw [show ({ st with
          selectedObjects :=
            st.selectedObjects ++ [o] } : SelToolState).helpers.erase o
            = st.helpers.erase o from rfl,
        List.erase_of_not_mem ho]
      simpa [List.nodup_append] using ⟨h2, ho⟩
    · intro x hx
      rw [show ({ st with
          selectedObjects :=
            st.selectedObjects ++ [o] } : SelToolState).helpers.erase o
            = st.helpers.erase o from rfl,
        List.erase_of_not_mem ho] at hx
      rcases List.mem_append.mp hx with hx | hx
      · exact List.mem_append.mpr (Or.inl (h3 x hx))
      · exact List.mem_append.mpr (Or.inr hx)
    · intro x hx
      rw [show ({ st with
          selectedObjects :=
            st.selectedObjects ++ [o] } : SelToolState).helpers.erase o
            = st.helpers.erase o from rfl,
        List.erase_of_not_mem ho]
      rcases List.mem_append.mp hx with hx | hx
      · exact List.mem_append.mpr (Or.inl (h4 x hx))
      · exact List.mem_append.mpr (Or.inr hx)

theorem foldl_selectObject_inv (l : List (Nat × Vec2)) (st : SelToolState)
    (h : SelectionTool.SelInv st) :
    SelectionTool.SelInv
      (l.foldl (fun acc c => SelectionTool.selectObject c.1 acc) st) := by
  induction l generalizing st with
  | nil => exact h
  | cons a l ih => exact ih _ (selectObject_inv a.1 st h)

theorem foldl_erase_all (l : List Nat) (h : List Nat) (hl : l.Nodup)
    (hh : h.Nodup) (h1 : ∀ x ∈ h, x ∈ l) (h2 : ∀ x ∈ l, x ∈ h) :
    l.foldl List.erase h = [] := by
  induction l generalizing h with
  | nil =>
    have : h = [] := List.eq_nil_iff_forall_not_mem.mpr
      (fun x hx => by simpa using h1 x hx)
    simp [this]
  | cons a l ih =>
    obtain ⟨hna, hl'⟩ := List.nodup_cons.mp hl
    simp only [List.foldl_cons]
    refine ih (h.erase a) hl' (hh.erase a) ?_ ?_
    · intro x hx
      obtain ⟨hxa, hxh⟩ := (hh.mem_erase_iff).mp hx
      rcases List.mem_cons.mp (h1 x hxh) with rfl | hxl
      · exact absurd rfl hxa
      · exact hxl
    · intro x hx
      exact (hh.mem_erase_iff).mpr
        ⟨fun he => hna (he ▸ hx), h2 x (List.mem_cons_of_mem a hx)⟩

theorem clearSelection_spec (st : SelToolState) (h : SelectionTool.SelInv st) :
    (SelectionTool.clearSelection st).selectedObjects = []
    ∧ (SelectionTool.clearSelection st).helpers = [] := by
  obtain ⟨h1, h2, h3, h4⟩ := h
  rw [clearSelection_eq]
  exact ⟨rfl, foldl_erase_all st.selectedObjects st.helpers h1 h2 h3 h4⟩

/-- Claim C9: every operation of the Selection Engine — single pick toggle,
marquee pointer-up, pointer-down, clearSelection and disable — preserves the
highlight invariant (each selected object carries exactly one live highlight
decoration and no unselected object carries one), and clearSelection removes
every decoration and empties the set. -/
theorem claim_C9 (st : SelToolState) (hinv : SelectionTool.SelInv st) :
    (∀ o, SelectionTool.SelInv (SelectionTool.selectObject o st))
    ∧ SelectionTool.SelInv (SelectionTool.clearSelection st)
    ∧ (SelectionTool.clearSelection st).helpers = []
    ∧ (SelectionTool.clearSelection st).selectedObjects = []
    ∧ (∀ (b : Box2) (sh : Bool) (c : List (Nat × Vec2)),
        SelectionTool.SelInv (SelectionTool.onMouseUp b sh c st))
    ∧ (∀ sh : Bool, SelectionTool.SelInv (SelectionTool.onMouseDown sh st))
    ∧ SelectionTool.SelInv (SelectionTool.disable st) := by
  have hclear : ∀ st' : SelToolState, SelectionTool.SelInv st' →
      SelectionTool.SelInv (SelectionTool.clearSelection st') := by
    intro st' h
    obtain ⟨c1, c2⟩ := clearSelection_spec st' h
    refine ⟨?_, ?_, ?_, ?_⟩
    · rw [c1]
      exact List.nodup_nil
    · rw [c2]
      exact List.nodup_nil
    · intro x hx
      rw [c2] at hx
      simp at hx
    · intro x hx
      rw [c1] at hx
      simp at hx
  refine ⟨fun o => selectObject_inv o st hinv, hclear st hinv,
    (clearSelection_spec st hinv).2, (clearSelection_spec st hinv).1,
    ?_, ?_, ?_⟩
  · intro b sh c
    unfold SelectionTool.onMouseUp
    by_cases hd : st.isDragging = false
    · rw [if_pos hd]
      exact hinv
    · rw [if_neg hd]
      cases sh with
      | false => exact foldl_selectObject_inv _ _ (hclear _ hinv)
      | true => exact foldl_selectObject_inv _ _ hinv
  · intro sh
    unfold SelectionTool.onMouseDown
    cases sh with
    | false => exact hclear _ hinv
    | true => exact hinv
  · unfold SelectionTool.disable
    exact hclear _ hinv

/-- Claim C9 witness: the invariant holds on the concrete two-object selection
selEx9 and is preserved by toggling a third object, and clearSelection on it
destroys every decoration. -/
theorem claim_C9_witness :
    SelectionTool.SelInv selEx9
    ∧ SelectionTool.SelInv (SelectionTool.selectObject 6 selEx9)
    ∧ (SelectionTool.clearSelection selEx9).helpers = []
    ∧ (SelectionTool.clearSelection selEx9).selectedObjects = [] := by
  refine ⟨by decide, (claim_C9 selEx9 (by decide)).1 6,
    (claim_C9 selEx9 (by decide)).2.2.1, (claim_C9 selEx9 (by decide)).2.2.2.1⟩

/-! Helper lemmas for the real-valued projection geometry. -/

theorem subVectors_addR (a v : Vec3R) : subVectors (addR a v) a = v := by
  cases v with
  | mk vx vy vz =>
    simp only [subVectors, addR, Vec3R.mk.injEq]
    exact ⟨by ring, by ring, by ring⟩

theorem smulR_smulR (a b : ℝ) (v : Vec3R) :
    smulR a (smulR b v) = smulR (a * b) v := by
  cases v with
  | mk vx vy vz =>
    simp only [smulR, Vec3R.mk.injEq]
    exact ⟨by ring, by ring, by ring⟩

theorem lengthR_smulR (r : ℝ) (v : Vec3R) :
    lengthR (smulR r v) = |r| * lengthR v := by
  unfold lengthR smulR
  rw [show (r * v.x) ^ 2 + (r * v.y) ^ 2 + (r * v.z) ^ 2
        = r ^ 2 * (v.x ^ 2 + v.y ^ 2 + v.z ^ 2) by ring]
  rw [Real.sqrt_mul (sq_nonneg r), Real.sqrt_sq_eq_abs]

theorem lengthR_sub_swap (a b : Vec3R) :
    lengthR (subVectors a b) = lengthR (subVectors b a) := by
  unfold lengthR subVectors
  congr 1
  ring

theorem clamp_far (lastPoint intersection : Vec3R)
    (h : 5 < distanceTo lastPoint intersection) :
    distanceTo lastPoint (LineTool.clampToLastPoint lastPoint intersection) = 5
    ∧ ∃ t : ℝ, 0 < t
        ∧ subVectors (LineTool.clampToLastPoint lastPoint intersection) lastPoint
            = smulR t (subVectors intersection lastPoint) := by
  have hd : distanceTo lastPoint intersection
      = lengthR (subVectors intersection lastPoint) := lengthR_sub_swap _ _
  have hlen : 5 < lengthR (subVectors intersection lastPoint) := hd ▸ h
  have hpos : 0 < lengthR (subVectors intersection lastPoint) := by linarith
  have hne : lengthR (subVectors intersection lastPoint) ≠ 0 := ne_of_gt hpos
  have hnorm : normalizeR (subVectors intersection lastPoint)
      = smulR (1 / lengthR (subVectors intersection lastPoint))
          (subVectors intersection lastPoint) := by
    unfold normalizeR
    rw [if_neg hne]
  unfold LineTool.clampToLastPoint
  rw [if_pos h]
  constructor
  · have e1 : distanceTo lastPoint
        (addR lastPoint (smulR 5 (normalizeR (subVectors intersection lastPoint))))
          = lengthR (smulR 5 (normalizeR (subVectors intersection lastPoint))) := by
      rw [show distanceTo lastPoint
            (addR lastPoint (smulR 5 (normalizeR (subVectors intersection lastPoint))))
          = lengthR (subVectors
              (addR lastPoint
                (smulR 5 (normalizeR (subVectors intersection lastPoint))))
              lastPoint) from lengthR_sub_swap _ _]
      rw [subVectors_addR]
    rw [e1, hnorm, smulR_smulR, lengthR_smulR, abs_of_pos (by positivity)]
    field_simp
  · refine ⟨5 * (1 / lengthR (subVectors intersection lastPoint)), by positivity, ?_⟩
    rw [subVectors_addR, hnorm, smulR_smulR]

theorem clamp_near (lastPoint intersection : Vec3R)
    (h : distanceTo lastPoint intersection ≤ 5) :
    LineTool.clampToLastPoint lastPoint intersection = intersection := by
  unfold LineTool.clampToLastPoint
  rw [if_neg (not_lt.mpr h)]

theorem gip_plane_some (points : List Vec3R) (ray : Ray3)
    (cpos cdir : Vec3R) (hits : List Vec3R) (intersection : Vec3R)
    (hne : 0 < points.length)
    (hplane : intersectPlane ray
        (normalizeR (subVectors cpos (points.getLastD ⟨0, 0, 0⟩)))
        (points.getLastD ⟨0, 0, 0⟩) = some intersection) :
    LineTool.getIntersectionPoint points false ray cpos cdir hits
      = some (LineTool.clampToLastPoint (points.getLastD ⟨0, 0, 0⟩) intersection) := by
  unfold LineTool.getIntersectionPoint LineTool.planePhase
  rw [if_pos ⟨hne, rfl⟩]
  simp only [hplane]

theorem gip_object_clamped (points : List Vec3R) (ray : Ray3)
    (cpos cdir : Vec3R) (firstHit : Vec3R) (rest : List Vec3R)
    (hne : 0 < points.length)
    (hplane : intersectPlane ray
        (normalizeR (subVectors cpos (points.getLastD ⟨0, 0, 0⟩)))
        (points.getLastD ⟨0, 0, 0⟩) = none) :
    LineTool.getIntersectionPoint points false ray cpos cdir (firstHit :: rest)
      = some (LineTool.clampToLastPoint (points.getLastD ⟨0, 0, 0⟩) firstHit) := by
  unfold LineTool.getIntersectionPoint LineTool.planePhase
  rw [if_pos ⟨hne, rfl⟩]
  simp only [hplane]
  rw [if_neg (by simpa using Nat.pos_iff_ne_zero.mp hne)]

/-- Claim C5: while continuing a polyline (at least one captured point, free
form mode), a raw plane or scene-object intersection farther than 5 world
units from the last captured point is clamped to the point exactly 5 units
from the last point along the direction from the last point toward the raw
intersection, and intersections within 5 units are returned unchanged. -/
theorem claim_C5 :
    (∀ lastPoint intersection : Vec3R, 5 < distanceTo lastPoint intersection →
        distanceTo lastPoint
            (LineTool.clampToLastPoint lastPoint intersection) = 5
        ∧ ∃ t : ℝ, 0 < t
            ∧ subVectors (LineTool.clampToLastPoint lastPoint intersection)
                lastPoint = smulR t (subVectors intersection lastPoint))
    ∧ (∀ lastPoint intersection : Vec3R, distanceTo lastPoint intersection ≤ 5 →
        LineTool.clampToLastPoint lastPoint intersection = intersection)
    ∧ (∀ (points : List Vec3R) (ray : Ray3) (cpos cdir : Vec3R)
          (hits : List Vec3R) (intersection : Vec3R), 0 < points.length →
        intersectPlane ray
            (normalizeR (subVectors cpos (points.getLastD ⟨0, 0, 0⟩)))
            (points.getLastD ⟨0, 0, 0⟩) = some intersection →
        LineTool.getIntersectionPoint points false ray cpos cdir hits
          = some (LineTool.clampToLastPoint (points.getLastD ⟨0, 0, 0⟩)
              intersection))
    ∧ (∀ (points : List Vec3R) (ray : Ray3) (cpos cdir : Vec3R)
          (firstHit : Vec3R) (rest : List Vec3R), 0 < points.length →
        intersectPlane ray
            (normalizeR (subVectors cpos (points.getLastD ⟨0, 0, 0⟩)))
            (points.getLastD ⟨0, 0, 0⟩) = none →
        LineTool.getIntersectionPoint points false ray cpos cdir
            (firstHit :: rest)
          = some (LineTool.clampToLastPoint (points.getLastD ⟨0, 0, 0⟩)
              firstHit)) :=
  ⟨clamp_far, clamp_near,
   fun points ray cpos cdir hits intersection hne hplane =>
     gip_plane_some points ray cpos cdir hits intersection hne hplane,
   fun points ray cpos cdir firstHit rest hne hplane =>
     gip_object_clamped points ray cpos cdir firstHit rest hne hplane⟩

/-- Claim C5 witness: all four parts of the claim exercised on concrete
inputs — an intersection at distance 13 from the last point (0,0,0) is clamped
back to distance 5, one at distance 3 is returned unchanged, and the plane
branch and the scene-object branch of getIntersectionPoint both route through
the clamp for concrete rays. -/
theorem claim_C5_witness :
    (5 : ℝ) < distanceTo ⟨0, 0, 0⟩ ⟨13, 0, 0⟩
    ∧ distanceTo ⟨0, 0, 0⟩ (LineTool.clampToLastPoint ⟨0, 0, 0⟩ ⟨13, 0, 0⟩) = 5
    ∧ distanceTo ⟨0, 0, 0⟩ ⟨3, 0, 0⟩ ≤ 5
    ∧ LineTool.clampToLastPoint ⟨0, 0, 0⟩ ⟨3, 0, 0⟩ = ⟨3, 0, 0⟩
    ∧ LineTool.getIntersectionPoint [⟨0, 0, 0⟩] false
        ⟨⟨0, 0, 1⟩, ⟨13, 0, -1⟩⟩ ⟨0, 0, 1⟩ ⟨0, 0, -1⟩ []
        = some (LineTool.clampToLastPoint ⟨0, 0, 0⟩ ⟨13, 0, 0⟩)
    ∧ LineTool.getIntersectionPoint [⟨0, 0, 0⟩] false
        ⟨⟨0, 0, 1⟩, ⟨1, 0, 0⟩⟩ ⟨0, 0, 1⟩ ⟨0, 0, -1⟩ [⟨3, 0, 0⟩]
        = some (LineTool.clampToLastPoint ⟨0, 0, 0⟩ ⟨3, 0, 0⟩) := by
  have hd13 : distanceTo (⟨0, 0, 0⟩ : Vec3R) ⟨13, 0, 0⟩ = 13 := by
    unfold distanceTo lengthR subVectors
    norm_num
    rw [show (169 : ℝ) = 13 ^ 2 by norm_num, Real.sqrt_sq (by norm_num)]
  have hd3 : distanceTo (⟨0, 0, 0⟩ : Vec3R) ⟨3, 0, 0⟩ = 3 := by
    unfold distanceTo lengthR subVectors
    norm_num
    rw [show (9 : ℝ) = 3 ^ 2 by norm_num, Real.sqrt_sq (by norm_num)]
  have h5lt : (5 : ℝ) < distanceTo ⟨0, 0, 0⟩ ⟨13, 0, 0⟩ := by
    rw [hd13]
    norm_num
  have h3le : distanceTo (⟨0, 0, 0⟩ : Vec3R) ⟨3, 0, 0⟩ ≤ 5 := by
    rw [hd3]
    norm_num
  have hnorm1 : normalizeR (subVectors ⟨0, 0, 1⟩
      (([⟨0, 0, 0⟩] : List Vec3R).getLastD ⟨0, 0, 0⟩)) = ⟨0, 0, 1⟩ := by
    show normalizeR (subVectors ⟨0, 0, 1⟩ ⟨0, 0, 0⟩) = ⟨0, 0, 1⟩
    have hsub : subVectors (⟨0, 0, 1⟩ : Vec3R) ⟨0, 0, 0⟩ = ⟨0, 0, 1⟩ := by
      simp only [subVectors, Vec3R.mk.injEq]
      norm_num
    rw [hsub]
    have h1 : lengthR ⟨0, 0, 1⟩ = 1 := by
      unfold lengthR
      norm_num
    unfold normalizeR
    rw [h1, if_neg one_ne_zero]
    simp only [smulR, Vec3R.mk.injEq]
    norm_num
  have hplaneA : intersectPlane ⟨⟨0, 0, 1⟩, ⟨13, 0, -1⟩⟩
      (normalizeR (subVectors ⟨0, 0, 1⟩
        (([⟨0, 0, 0⟩] : List Vec3R).getLastD ⟨0, 0, 0⟩)))
      (([⟨0, 0, 0⟩] : List Vec3R).getLastD ⟨0, 0, 0⟩) = some ⟨13, 0, 0⟩ := by
    rw [hnorm1]
    show intersectPlane ⟨⟨0, 0, 1⟩, ⟨13, 0, -1⟩⟩ ⟨0, 0, 1⟩ ⟨0, 0, 0⟩
        = some ⟨13, 0, 0⟩
    simp only [intersectPlane, dotR]
    norm_num
    simp only [addR, smulR, Vec3R.mk.injEq]
    norm_num
  have hplaneB : intersectPlane ⟨⟨0, 0, 1⟩, ⟨1, 0, 0⟩⟩
      (normalizeR (subVectors ⟨0, 0, 1⟩
        (([⟨0, 0, 0⟩] : List Vec3R).getLastD ⟨0, 0, 0⟩)))
      (([⟨0, 0, 0⟩] : List Vec3R).getLastD ⟨0, 0, 0⟩) = none := by
    rw [hnorm1]
    show intersectPlane ⟨⟨0, 0, 1⟩, ⟨1, 0, 0⟩⟩ ⟨0, 0, 1⟩ ⟨0, 0, 0⟩ = none
    simp only [intersectPlane, dotR]
    norm_num
  refine ⟨h5lt, (claim_C5.1 ⟨0, 0, 0⟩ ⟨13, 0, 0⟩ h5lt).1, h3le,
    claim_C5.2.1 ⟨0, 0, 0⟩ ⟨3, 0, 0⟩ h3le, ?_, ?_⟩
  · exact claim_C5.2.2.1 [⟨0, 0, 0⟩] ⟨⟨0, 0, 1⟩, ⟨13, 0, -1⟩⟩ ⟨0, 0, 1⟩
      ⟨0, 0, -1⟩ [] ⟨13, 0, 0⟩ (by simp) hplaneA
  · exact claim_C5.2.2.2 [⟨0, 0, 0⟩] ⟨⟨0, 0, 1⟩, ⟨1, 0, 0⟩⟩ ⟨0, 0, 1⟩
      ⟨0, 0, -1⟩ ⟨3, 0, 0⟩ [] (by simp) hplaneB

/-- Claim C10: the line tool's pointer projection is total — for every mouse
event, every captured-point list, every ray and every list of scene-object
hits, getIntersectionPoint returns some WorldPoint (when both the plane and
the scene-object intersections fail it falls back to the point 3 world units
in front of the camera), so the null early-return branch in onMouseDown is
unreachable. -/
theorem claim_C10 (points : List Vec3R) (useFixedDistance : Bool) (ray : Ray3)
    (cameraPosition cameraDirection : Vec3R) (objectHits : List Vec3R) :
    (LineTool.getIntersectionPoint points useFixedDistance ray cameraPosition
        cameraDirection objectHits).isSome = true := by
  unfold LineTool.getIntersectionPoint
  rcases h : LineTool.planePhase points useFixedDistance ray cameraPosition
    with _ | r
  · rcases objectHits with _ | ⟨a, l⟩
    · rfl
    · show (if points.length = 0 ∨ useFixedDistance = true then some a
          else some (LineTool.clampToLastPoint
            (points.getLastD ⟨0, 0, 0⟩) a)).isSome = true
      split <;> rfl
  · rfl

end BimEditor
